import Mathlib

set_option maxRecDepth 100000

/-!
Shallow embedding of the Mercuryo buy-crypto screen
(`src/app/(protected)/(tabs)/buy-crypto/index.tsx`).

The screen's core logic is:
  * `createWidgetSignature` — SHA-512 over the delimiter-free concatenation
    of address, secret, client ip and merchant transaction id, hex encoded
    and prefixed with the literal version tag "v2:";
  * `buildMercuryoWidgetUrl` — assembly of the provider redirect URL with a
    fixed parameter set, the signature percent-encoded via
    `encodeURIComponent`;
  * a message handler reacting to completion payloads from the embedded
    widget;
  * the `buildUrl` effect driving the session state (loading flag, error
    message, final URL).

Machine hashing (`expo-crypto`'s `digestStringAsync` with SHA-512) is
embedded as an executable SHA-512 over `Nat` byte lists, FIPS 180-4
faithful, validated below against the standard "abc" and empty-string
test vectors.
-/

/-- Sixty-four bit modulus used throughout the SHA-512 arithmetic. -/
def w64 : Nat := 2 ^ 64

/-- Addition modulo 2^64. -/
def add64 (a b : Nat) : Nat := (a + b) % w64

/-- Right rotation of a 64-bit word. -/
def rotr64 (x n : Nat) : Nat := ((x >>> n) ||| (x <<< (64 - n))) % w64

/-- Bitwise complement of a 64-bit word. -/
def not64 (x : Nat) : Nat := x ^^^ 0xFFFFFFFFFFFFFFFF

/-- Newton iteration for the integer square root, with explicit fuel so
the recursion is structural and kernel-reducible. -/
def isqrtAux : Nat → Nat → Nat → Nat
  | 0, _, g => g
  | fuel + 1, n, g =>
    let next := (g + n / g) / 2
    if next < g then isqrtAux fuel n next else g

/-- Fueled binary length of a natural number. -/
def bitsAux : Nat → Nat → Nat
  | 0, _ => 0
  | fuel + 1, n => if n = 0 then 0 else bitsAux fuel (n / 2) + 1

/-- Binary length, enough fuel for any number below 2^1000. -/
def bitsN (n : Nat) : Nat := bitsAux 1000 n

/-- Integer square root (floor); the initial guess 2^(bits/2 + 1) bounds
the root from above, so the Newton iteration descends to the floor. -/
def isqrtN (n : Nat) : Nat :=
  if n ≤ 1 then n else isqrtAux 500 n (2 ^ (bitsN n / 2 + 1))

/-- Newton iteration for the integer cube root, with explicit fuel so the
recursion is structural and kernel-reducible. -/
def icbrtAux : Nat → Nat → Nat → Nat
  | 0, _, g => g
  | fuel + 1, n, g =>
    let next := (2 * g + n / (g * g)) / 3
    if next < g then icbrtAux fuel n next else g

/-- Integer cube root (floor); the initial guess 2^(bits/3 + 1) bounds
the root from above, so the Newton iteration descends to the floor. -/
def icbrtN (n : Nat) : Nat :=
  if n ≤ 1 then n else icbrtAux 500 n (2 ^ (bitsN n / 3 + 1))

/-- Trial-division primality test for numbers below 441: divisors up to
20 suffice, and a candidate divisor at least n is skipped. -/
def isPrimeNat (n : Nat) : Bool :=
  2 ≤ n && (List.range 21).all (fun d => d < 2 || n ≤ d || n % d != 0)

/-- The first eighty primes (the eightieth prime is 409). -/
def primes80 : List Nat := ((List.range 410).filter isPrimeNat).take 80

/-- SHA-512 round constants, derived exactly as FIPS 180-4 section 4.2.3
prescribes: the first 64 bits of the fractional parts of the cube roots of
the first eighty primes, here computed as floor(cbrt(p * 2^192)) mod 2^64.
The derivation is validated end to end by the digest test vectors below. -/
def sha512K : List Nat := primes80.map (fun p => icbrtN (p * 2 ^ 192) % 2 ^ 64)

/-- SHA-512 initial hash value: the first 64 bits of the fractional parts
of the square roots of the first eight primes (FIPS 180-4 section 5.3.5),
computed as floor(sqrt(p * 2^128)) mod 2^64. -/
def sha512H0 : List Nat := (primes80.take 8).map (fun p => isqrtN (p * 2 ^ 128) % 2 ^ 64)

/-- Big sigma-0 function of the SHA-512 compression loop. -/
def bigS0 (x : Nat) : Nat := rotr64 x 28 ^^^ rotr64 x 34 ^^^ rotr64 x 39

/-- Big sigma-1 function of the SHA-512 compression loop. -/
def bigS1 (x : Nat) : Nat := rotr64 x 14 ^^^ rotr64 x 18 ^^^ rotr64 x 41

/-- Small sigma-0 function of the SHA-512 message schedule. -/
def smallS0 (x : Nat) : Nat := rotr64 x 1 ^^^ rotr64 x 8 ^^^ (x >>> 7)

/-- Small sigma-1 function of the SHA-512 message schedule. -/
def smallS1 (x : Nat) : Nat := rotr64 x 19 ^^^ rotr64 x 61 ^^^ (x >>> 6)

/-- Choice function of the SHA-512 compression loop. -/
def chF (x y z : Nat) : Nat := (x &&& y) ^^^ (not64 x &&& z)

/-- Majority function of the SHA-512 compression loop. -/
def majF (x y z : Nat) : Nat := (x &&& y) ^^^ (x &&& z) ^^^ (y &&& z)

/-- One extension step of the SHA-512 message schedule: appends word
sigma1(w[t-2]) + w[t-7] + sigma0(w[t-15]) + w[t-16] modulo 2^64. -/
def schedStep (ws : List Nat) : List Nat :=
  let t := ws.length
  let w2 := ws.getD (t - 2) 0
  let w7 := ws.getD (t - 7) 0
  let w15 := ws.getD (t - 15) 0
  let w16 := ws.getD (t - 16) 0
  ws ++ [(smallS1 w2 + w7 + smallS0 w15 + w16) % w64]

/-- Extends the sixteen words of a block to the eighty-word schedule. -/
def schedule (block : List Nat) : List Nat := Nat.repeat schedStep 64 block

/-- One round of the SHA-512 compression loop on the eight-word working
state, consuming a round constant paired with a schedule word. -/
def compressRound (st : List Nat) (kw : Nat × Nat) : List Nat :=
  match st with
  | [a, b, c, d, e, f, g, h] =>
    let t1 := (h + bigS1 e + chF e f g + kw.1 + kw.2) % w64
    let t2 := (bigS0 a + majF a b c) % w64
    [(t1 + t2) % w64, a, b, c, (d + t1) % w64, e, f, g]
  | other => other

/-- Processes one sixteen-word block into the running eight-word hash. -/
def processBlock (h : List Nat) (block : List Nat) : List Nat :=
  let st := (sha512K.zip (schedule block)).foldl compressRound h
  (h.zip st).map (fun p => add64 p.1 p.2)

/-- Big-endian sixteen-byte encoding of the message bit length. -/
def lenBytes (bitLen : Nat) : List Nat :=
  (List.range 16).map (fun i => (bitLen >>> ((15 - i) * 8)) % 256)

/-- SHA-512 padding: a 0x80 byte, zeros to 112 modulo 128, then the
128-bit big-endian bit length. -/
def padBytes (msg : List Nat) : List Nat :=
  let len := msg.length
  let zeros := (128 + 112 - ((len + 1) % 128)) % 128
  msg ++ [0x80] ++ List.replicate zeros 0 ++ lenBytes (len * 8)

/-- Groups eight consecutive bytes into one big-endian 64-bit word. -/
def bytesToWords : List Nat → List Nat
  | b0 :: b1 :: b2 :: b3 :: b4 :: b5 :: b6 :: b7 :: rest =>
    (((((((b0 * 256 + b1) * 256 + b2) * 256 + b3) * 256 + b4) * 256 + b5) * 256
        + b6) * 256 + b7) :: bytesToWords rest
  | _ => []

/-- Splits a byte list into 128-byte chunks, with explicit fuel so the
recursion is structural. -/
def chunks128 : Nat → List Nat → List (List Nat)
  | 0, _ => []
  | _, [] => []
  | fuel + 1, l => l.take 128 :: chunks128 fuel (l.drop 128)

/-- SHA-512 digest of a byte list, as eight 64-bit words. -/
def sha512Words (msg : List Nat) : List Nat :=
  let padded := padBytes msg
  (chunks128 (padded.length + 1) padded).foldl
    (fun h b => processBlock h (bytesToWords b)) sha512H0

/-- Lowercase hexadecimal digit. -/
def hexCharLower (n : Nat) : Char :=
  if n < 10 then Char.ofNat (48 + n) else Char.ofNat (87 + n)

/-- Sixteen-hex-digit lowercase rendering of a 64-bit word. -/
def word64Hex (w : Nat) : List Char :=
  (List.range 16).map (fun i => hexCharLower ((w >>> ((15 - i) * 4)) % 16))

/-- UTF-8 encoding of a Unicode code point, as a byte list. -/
def utf8EncodeChar (c : Nat) : List Nat :=
  if c < 0x80 then [c]
  else if c < 0x800 then
    [0xC0 ||| (c >>> 6), 0x80 ||| (c &&& 0x3F)]
  else if c < 0x10000 then
    [0xE0 ||| (c >>> 12), 0x80 ||| ((c >>> 6) &&& 0x3F), 0x80 ||| (c &&& 0x3F)]
  else
    [0xF0 ||| (c >>> 18), 0x80 ||| ((c >>> 12) &&& 0x3F),
     0x80 ||| ((c >>> 6) &&& 0x3F), 0x80 ||| (c &&& 0x3F)]

/-- UTF-8 encoding of a string, as a byte list. -/
def utf8Encode (s : String) : List Nat :=
  s.data.foldr (fun c acc => utf8EncodeChar c.toNat ++ acc) []

/-- Lowercase hex SHA-512 digest of the UTF-8 bytes of a string; this is
the embedding of `Crypto.digestStringAsync(CryptoDigestAlgorithm.SHA512, s)`. -/
def sha512Hex (s : String) : String :=
  String.mk (((sha512Words (utf8Encode s)).map word64Hex).flatten)

/-- Embedding of `createWidgetSignature` from
`src/app/(protected)/(tabs)/buy-crypto/index.tsx`: hash the delimiter-free
concatenation of the four fields and prefix the literal version tag. -/
def createWidgetSignature (address secret ip merchantTransactionId : String) :
    String :=
  let concatenatedString := address ++ secret ++ ip ++ merchantTransactionId
  let hash := sha512Hex concatenatedString
  "v2:" ++ hash

/-- Validation of the embedded SHA-512 against the FIPS 180-4 "abc" test
vector. -/
theorem sha512Hex_abc :
    sha512Hex "abc" =
      "ddaf35a193617abacc417349ae20413112e6fa4e89a97ea20a9eeee64b55d39a2192992a274fc1a836ba3c23a3feebbd454d4423643ce80e2a9ac94fa54ca49f" := by
  decide

/-- Validation of the embedded SHA-512 against the empty-message test
vector. -/
theorem sha512Hex_empty :
    sha512Hex "" =
      "cf83e1357eefb8bdf1542850d66d8007d620e4050b5715dc83f4a921d36ce9ce47d0d13c5d85f2b0ff8318d2877eec2f63b931bd47417a81a538327af927da3e" := by
  decide

/-- Claim C1: for every address, secret, clientIp and merchantTransactionId,
`createWidgetSignature` returns "v2:" followed by the lowercase hex SHA-512
digest of the UTF-8 bytes of the delimiter-free concatenation
address || secret || clientIp || merchantTransactionId in that fixed order;
the spec fixture address="0xABC", secret="s3cr3t", ip="1.2.3.4",
merchantTransactionId="1700000000000" evaluates to "v2:" plus the
sha512 hex digest of the concatenation (given concretely), and the function
is pure, so identical inputs yield identical signatures. -/
theorem claim_C1_signature_algorithm :
    (∀ address secret ip merchantTransactionId : String,
        createWidgetSignature address secret ip merchantTransactionId =
          "v2:" ++ String.mk (((sha512Words (utf8Encode
              (address ++ secret ++ ip ++ merchantTransactionId))).map
                word64Hex).flatten)) ∧
    createWidgetSignature "0xABC" "s3cr3t" "1.2.3.4" "1700000000000" =
      "v2:" ++ sha512Hex "0xABCs3cr3t1.2.3.41700000000000" ∧
    createWidgetSignature "0xABC" "s3cr3t" "1.2.3.4" "1700000000000" =
      "v2:a9d364611ea0d67dd5f6a1f9866a9f566b809825bf5ce690fb6d0e2687b25c979544b98e786adaa629c89973ed476222dd3724577103de0610fc891c6d09b22b" := by
  refine ⟨fun address secret ip mtid => rfl, rfl, ?_⟩
  decide

/-- Characters left unescaped by JavaScript `encodeURIComponent`:
ASCII letters, digits, and - _ . ! ~ * ' ( ). -/
def uriUnreserved (b : Nat) : Bool :=
  (0x41 ≤ b && b ≤ 0x5A) || (0x61 ≤ b && b ≤ 0x7A) || (0x30 ≤ b && b ≤ 0x39) ||
  b == 0x2D || b == 0x5F || b == 0x2E || b == 0x21 || b == 0x7E ||
  b == 0x2A || b == 0x27 || b == 0x28 || b == 0x29

/-- Uppercase hexadecimal digit, as used by percent-encoding. -/
def hexCharUpper (n : Nat) : Char :=
  if n < 10 then Char.ofNat (48 + n) else Char.ofNat (55 + n)

/-- Percent-encoding of a UTF-8 byte list: unreserved bytes kept verbatim,
all others rendered as %XX with uppercase hex. -/
def percentEncodeBytes (bs : List Nat) : List Char :=
  bs.foldr
    (fun b acc =>
      if uriUnreserved b then Char.ofNat b :: acc
      else '%' :: hexCharUpper (b / 16) :: hexCharUpper (b % 16) :: acc) []

/-- Embedding of JavaScript `encodeURIComponent`. -/
def encodeURIComponent (s : String) : String :=
  String.mk (percentEncodeBytes (utf8Encode s))

/-- Embedding of `buildMercuryoWidgetUrl` from
`src/app/(protected)/(tabs)/buy-crypto/index.tsx`. The source derives
`merchantTransactionId` from `Date.now().toString()`; that effectful read is
passed in here as the explicit `merchantTransactionId` argument, and the
successive `url += ...` statements become the string concatenation below. -/
def buildMercuryoWidgetUrl
    (address widgetId widgetSecret userIp merchantTransactionId : String) :
    String :=
  let signature :=
    createWidgetSignature address widgetSecret userIp merchantTransactionId
  "https://exchange.mercuryo.io/?widget_id=" ++ widgetId
    ++ "&address=" ++ address
    ++ "&merchant_transaction_id=" ++ merchantTransactionId
    ++ "&signature=" ++ encodeURIComponent signature
    ++ "&type=buy"
    ++ "&fiat_currency=EUR"
    ++ "&networks=ETHEREUM"
    ++ "&currency=USDC"

/-- Drops characters up to and including the first question mark: the raw
query string of a URL. -/
def afterQuestionMark : List Char → List Char
  | [] => []
  | c :: rest => if c = '?' then rest else afterQuestionMark rest

/-- Splits a character list on ampersands; the accumulator holds the
current segment reversed. -/
def splitAmp : List Char → List Char → List (List Char)
  | [], acc => [acc.reverse]
  | c :: rest, acc =>
    if c = '&' then acc.reverse :: splitAmp rest [] else splitAmp rest (c :: acc)

/-- Characters of a query segment before its first equals sign. -/
def keyOf : List Char → List Char
  | [] => []
  | c :: rest => if c = '=' then [] else c :: keyOf rest

/-- Characters of a query segment after its first equals sign. -/
def valOf : List Char → List Char
  | [] => []
  | c :: rest => if c = '=' then rest else valOf rest

/-- Key-value pairs of a URL's raw query string. -/
def queryParams (url : String) : List (List Char × List Char) :=
  (splitAmp (afterQuestionMark url.data) []).map (fun seg => (keyOf seg, valOf seg))

/-- Number of query parameters of a URL bearing the given key. -/
def countParam (url k : String) : Nat :=
  ((queryParams url).map Prod.fst).count k.data

/-- Value of the first query parameter of a URL bearing the given key. -/
def getParam (url k : String) : Option (List Char) :=
  (((queryParams url).filter (fun p => p.1 == k.data)).head?).map Prod.snd

/-- Claim C6: the widget secret is consumed only as hash input, never
embedded in the URL: two runs differing only in the secret but agreeing on
the computed signature yield identical URLs. -/
theorem claim_C6_secret_noninterference
    (address widgetId userIp merchantTransactionId : String)
    (secretA secretB : String)
    (hsig : createWidgetSignature address secretA userIp merchantTransactionId =
        createWidgetSignature address secretB userIp merchantTransactionId) :
    buildMercuryoWidgetUrl address widgetId secretA userIp merchantTransactionId =
      buildMercuryoWidgetUrl address widgetId secretB userIp merchantTransactionId := by
  unfold buildMercuryoWidgetUrl
  rw [hsig]

/-- Witness for claim C6 at a concrete input with equal secrets. -/
theorem claim_C6_secret_noninterference_witness :
    buildMercuryoWidgetUrl "0xABC" "wid" "s3cr3t" "1.2.3.4" "1700000000000" =
      buildMercuryoWidgetUrl "0xABC" "wid" "s3cr3t" "1.2.3.4" "1700000000000" :=
  claim_C6_secret_noninterference "0xABC" "wid" "1.2.3.4" "1700000000000"
    "s3cr3t" "s3cr3t" rfl

/-- Every valid Unicode code point is below 0x110000. -/
theorem char_toNat_lt (c : Char) : c.toNat < 0x110000 := by
  show c.val.toNat < 0x110000
  rcases c.valid with h | h
  · exact Nat.lt_trans h (by norm_num)
  · exact h.2

/-- UTF-8 encoding of a valid code point emits genuine bytes. -/
theorem utf8EncodeChar_lt_256 {c : Nat} (hc : c < 0x110000) :
    ∀ b ∈ utf8EncodeChar c, b < 256 := by
  intro b hb
  have h64 : ∀ x : Nat, 0x80 ||| (x &&& 0x3F) < 256 := fun x =>
    Nat.or_lt_two_pow (n := 8) (by norm_num)
      (Nat.lt_of_le_of_lt (Nat.and_le_right) (by norm_num))
  unfold utf8EncodeChar at hb
  by_cases h1 : c < 0x80
  · rw [if_pos h1] at hb
    simp only [List.mem_singleton] at hb
    omega
  · rw [if_neg h1] at hb
    by_cases h2 : c < 0x800
    · rw [if_pos h2] at hb
      rcases List.mem_cons.mp hb with h | h
      · subst h
        refine Nat.or_lt_two_pow (n := 8) (by norm_num) ?_
        rw [Nat.shiftRight_eq_div_pow]
        omega
      · simp only [List.mem_singleton] at h
        subst h; exact h64 c
    · rw [if_neg h2] at hb
      by_cases h3 : c < 0x10000
      · rw [if_pos h3] at hb
        rcases List.mem_cons.mp hb with h | h
        · subst h
          refine Nat.or_lt_two_pow (n := 8) (by norm_num) ?_
          rw [Nat.shiftRight_eq_div_pow]
          omega
        · rcases List.mem_cons.mp h with h4 | h4
          · subst h4; exact h64 _
          · simp only [List.mem_singleton] at h4
            subst h4; exact h64 c
      · rw [if_neg h3] at hb
        rcases List.mem_cons.mp hb with h | h
        · subst h
          refine Nat.or_lt_two_pow (n := 8) (by norm_num) ?_
          rw [Nat.shiftRight_eq_div_pow]
          omega
        · rcases List.mem_cons.mp h with h4 | h4
          · subst h4; exact h64 _
          · rcases List.mem_cons.mp h4 with h5 | h5
            · subst h5; exact h64 _
            · simp only [List.mem_singleton] at h5
              subst h5; exact h64 c

/-- UTF-8 encoding of a string emits genuine bytes. -/
theorem utf8Encode_lt_256 (s : String) : ∀ b ∈ utf8Encode s, b < 256 := by
  unfold utf8Encode
  induction s.data with
  | nil => intro b hb; simp at hb
  | cons c rest ih =>
    intro b hb
    simp only [List.foldr_cons] at hb
    rcases List.mem_append.mp hb with h | h
    · exact utf8EncodeChar_lt_256 (char_toNat_lt c) b h
    · exact ih b h

/-- Bytes kept verbatim by percent-encoding are 7-bit ASCII. -/
theorem uriUnreserved_lt_128 {b : Nat} (h : uriUnreserved b = true) : b < 128 := by
  simp only [uriUnreserved, Bool.or_eq_true, Bool.and_eq_true, decide_eq_true_eq,
    beq_iff_eq] at h
  omega

/-- Unreserved bytes never decode to the query metacharacters. -/
theorem safeChar_ofNat_unreserved :
    ∀ b < 128, uriUnreserved b = true →
      Char.ofNat b ≠ '&' ∧ Char.ofNat b ≠ '=' ∧ Char.ofNat b ≠ ':' := by
  decide

/-- Uppercase hex digits are never query metacharacters. -/
theorem safeChar_hexUpper :
    ∀ n < 16, hexCharUpper n ≠ '&' ∧ hexCharUpper n ≠ '=' ∧ hexCharUpper n ≠ ':' := by
  decide

/-- Every character emitted by percent-encoding a list of genuine bytes
differs from the query metacharacters ampersand, equals and colon. -/
theorem percentEncodeBytes_safe (bs : List Nat) (hbs : ∀ b ∈ bs, b < 256) :
    ∀ c ∈ percentEncodeBytes bs, c ≠ '&' ∧ c ≠ '=' ∧ c ≠ ':' := by
  induction bs with
  | nil => intro c hc; simp [percentEncodeBytes] at hc
  | cons b rest ih =>
    intro c hc
    have hb256 : b < 256 := hbs b (List.mem_cons_self b rest)
    have hrest : ∀ x ∈ rest, x < 256 := fun x hx => hbs x (List.mem_cons_of_mem b hx)
    simp only [percentEncodeBytes, List.foldr_cons] at hc
    by_cases hb : uriUnreserved b
    · rw [if_pos hb] at hc
      rcases List.mem_cons.mp hc with h | h
      · subst h
        exact safeChar_ofNat_unreserved b (uriUnreserved_lt_128 hb) hb
      · exact ih hrest c h
    · rw [if_neg hb] at hc
      rcases List.mem_cons.mp hc with h | h
      · subst h; refine ⟨by decide, by decide, by decide⟩
      · rcases List.mem_cons.mp h with h2 | h2
        · subst h2
          exact safeChar_hexUpper (b / 16) (by omega)
        · rcases List.mem_cons.mp h2 with h3 | h3
          · subst h3
            exact safeChar_hexUpper (b % 16) (by omega)
          · exact ih hrest c h3

/-- Splitting distributes over an ampersand-free leading segment. -/
theorem splitAmp_append_noamp (xs : List Char) :
    ∀ ys acc, (∀ c ∈ xs, c ≠ '&') →
      splitAmp (xs ++ ys) acc = splitAmp ys (xs.reverse ++ acc) := by
  induction xs with
  | nil => intro ys acc _; simp
  | cons c rest ih =>
    intro ys acc hno
    have hc : c ≠ '&' := hno c (List.mem_cons_self c rest)
    have hrest : ∀ x ∈ rest, x ≠ '&' := fun x hx => hno x (List.mem_cons_of_mem c hx)
    simp only [List.cons_append, splitAmp, if_neg hc, List.append_eq]
    rw [ih ys (c :: acc) hrest]
    simp [List.append_assoc]

/-- Splitting at a leading ampersand closes the current segment. -/
theorem splitAmp_amp (ys : List Char) (acc : List Char) :
    splitAmp ('&' :: ys) acc = acc.reverse :: splitAmp ys [] := by
  simp [splitAmp]

/-- The raw query of the built URL begins right after the single question
mark of the base endpoint literal. -/
theorem afterQ_build (r : List Char) :
    afterQuestionMark ("https://exchange.mercuryo.io/?widget_id=".data ++ r) =
      "widget_id=".data ++ r := rfl

/-- The all-literal tail of the query splits into its four segments. -/
theorem splitTail :
    splitAmp ("type=buy".data ++ ("&fiat_currency=EUR".data ++
        ("&networks=ETHEREUM".data ++ "&currency=USDC".data))) [] =
      ["type=buy".data, "fiat_currency=EUR".data, "networks=ETHEREUM".data,
       "currency=USDC".data] := by decide

/-- Master computation: when the interpolated address, widget id and
merchant transaction id are ampersand-free, the query parameters of the
built URL are exactly the eight fixed-key pairs, in order. -/
theorem queryParams_build
    (address widgetId widgetSecret userIp mtid : String)
    (ha : ∀ c ∈ address.data, c ≠ '&')
    (hw : ∀ c ∈ widgetId.data, c ≠ '&')
    (hm : ∀ c ∈ mtid.data, c ≠ '&') :
    queryParams (buildMercuryoWidgetUrl address widgetId widgetSecret userIp mtid) =
      [("widget_id".data, widgetId.data),
       ("address".data, address.data),
       ("merchant_transaction_id".data, mtid.data),
       ("signature".data, percentEncodeBytes (utf8Encode
           (createWidgetSignature address widgetSecret userIp mtid))),
       ("type".data, "buy".data),
       ("fiat_currency".data, "EUR".data),
       ("networks".data, "ETHEREUM".data),
       ("currency".data, "USDC".data)] := by
  have hdata : (buildMercuryoWidgetUrl address widgetId widgetSecret userIp mtid).data =
      "https://exchange.mercuryo.io/?widget_id=".data ++ (widgetId.data ++
        ('&' :: ("address=".data ++ (address.data ++
          ('&' :: ("merchant_transaction_id=".data ++ (mtid.data ++
            ('&' :: ("signature=".data ++ (percentEncodeBytes (utf8Encode
                (createWidgetSignature address widgetSecret userIp mtid)) ++
              ('&' :: ("type=buy".data ++ ("&fiat_currency=EUR".data ++
                ("&networks=ETHEREUM".data ++ "&currency=USDC".data)))))))))))))) := by
    simp only [buildMercuryoWidgetUrl, encodeURIComponent, String.data_append,
      List.append_assoc, List.cons_append]
  have hencNoAmp : ∀ c ∈ percentEncodeBytes (utf8Encode
      (createWidgetSignature address widgetSecret userIp mtid)), c ≠ '&' :=
    fun c hc => (percentEncodeBytes_safe _ (utf8Encode_lt_256 _) c hc).1
  unfold queryParams
  rw [hdata, afterQ_build]
  rw [splitAmp_append_noamp "widget_id=".data _ _ (by decide),
    splitAmp_append_noamp widgetId.data _ _ hw, splitAmp_amp,
    splitAmp_append_noamp "address=".data _ _ (by decide),
    splitAmp_append_noamp address.data _ _ ha, splitAmp_amp,
    splitAmp_append_noamp "merchant_transaction_id=".data _ _ (by decide),
    splitAmp_append_noamp mtid.data _ _ hm, splitAmp_amp,
    splitAmp_append_noamp "signature=".data _ _ (by decide),
    splitAmp_append_noamp _ _ _ hencNoAmp, splitAmp_amp, splitTail]
  simp [keyOf, valOf]

/-- The built URL always extends the fixed base endpoint. -/
theorem buildUrl_base (address widgetId widgetSecret userIp mtid : String) :
    ∃ rest, buildMercuryoWidgetUrl address widgetId widgetSecret userIp mtid =
      "https://exchange.mercuryo.io/" ++ rest := by
  refine ⟨"?widget_id=" ++ widgetId ++ "&address=" ++ address
    ++ "&merchant_transaction_id=" ++ mtid
    ++ "&signature=" ++ encodeURIComponent
        (createWidgetSignature address widgetSecret userIp mtid)
    ++ "&type=buy" ++ "&fiat_currency=EUR" ++ "&networks=ETHEREUM"
    ++ "&currency=USDC", ?_⟩
  apply String.ext
  simp [buildMercuryoWidgetUrl, String.data_append]

/-- Claim C2 (amended): for inputs whose interpolated components (address,
widgetId and the internally generated merchantTransactionId, which the
source derives from `Date.now().toString()`) contain no ampersand, the
built URL starts with the fixed base endpoint
https://exchange.mercuryo.io/ and contains exactly one occurrence of each
required query parameter widget_id, address, merchant_transaction_id,
signature, fiat_currency (value "EUR"), networks (value "ETHEREUM") and
currency (value "USDC"); the signature parameter value is the
percent-encoding of the version-prefixed signature, and no colon — in
particular not the colon of the "v2:" version tag — appears unescaped in
it. Unamended, the claim fails: the code interpolates address and
widgetId without escaping, so an address containing "&" duplicates keys
(see the counterexample). -/
theorem claim_C2_url_parameter_set
    (address widgetId widgetSecret userIp merchantTransactionId : String)
    (ha : ∀ c ∈ address.data, c ≠ '&')
    (hw : ∀ c ∈ widgetId.data, c ≠ '&')
    (hm : ∀ c ∈ merchantTransactionId.data, c ≠ '&') :
    (∃ rest, buildMercuryoWidgetUrl address widgetId widgetSecret userIp
        merchantTransactionId = "https://exchange.mercuryo.io/" ++ rest) ∧
    countParam (buildMercuryoWidgetUrl address widgetId widgetSecret userIp
        merchantTransactionId) "widget_id" = 1 ∧
    countParam (buildMercuryoWidgetUrl address widgetId widgetSecret userIp
        merchantTransactionId) "address" = 1 ∧
    countParam (buildMercuryoWidgetUrl address widgetId widgetSecret userIp
        merchantTransactionId) "merchant_transaction_id" = 1 ∧
    countParam (buildMercuryoWidgetUrl address widgetId widgetSecret userIp
        merchantTransactionId) "signature" = 1 ∧
    countParam (buildMercuryoWidgetUrl address widgetId widgetSecret userIp
        merchantTransactionId) "fiat_currency" = 1 ∧
    countParam (buildMercuryoWidgetUrl address widgetId widgetSecret userIp
        merchantTransactionId) "networks" = 1 ∧
    countParam (buildMercuryoWidgetUrl address widgetId widgetSecret userIp
        merchantTransactionId) "currency" = 1 ∧
    getParam (buildMercuryoWidgetUrl address widgetId widgetSecret userIp
        merchantTransactionId) "fiat_currency" = some "EUR".data ∧
    getParam (buildMercuryoWidgetUrl address widgetId widgetSecret userIp
        merchantTransactionId) "networks" = some "ETHEREUM".data ∧
    getParam (buildMercuryoWidgetUrl address widgetId widgetSecret userIp
        merchantTransactionId) "currency" = some "USDC".data ∧
    getParam (buildMercuryoWidgetUrl address widgetId widgetSecret userIp
        merchantTransactionId) "signature" =
      some (percentEncodeBytes (utf8Encode
        (createWidgetSignature address widgetSecret userIp merchantTransactionId))) ∧
    (∀ c ∈ percentEncodeBytes (utf8Encode
        (createWidgetSignature address widgetSecret userIp merchantTransactionId)),
      c ≠ ':') := by
  have hq := queryParams_build address widgetId widgetSecret userIp
    merchantTransactionId ha hw hm
  refine ⟨buildUrl_base address widgetId widgetSecret userIp
    merchantTransactionId, ?_, ?_, ?_, ?_, ?_, ?_, ?_, ?_, ?_, ?_, ?_,
    fun c hc => (percentEncodeBytes_safe _ (utf8Encode_lt_256 _) c hc).2.2⟩
  all_goals first
    | (unfold countParam; rw [hq]; simp)
    | (unfold getParam; rw [hq]; simp)

/-- Counterexample to claim C2 as stated: with the concrete address
"0x&currency=BTC" the raw interpolation produces two currency parameters,
so the URL does not contain exactly one occurrence of each required key. -/
theorem claim_C2_counterexample :
    countParam (buildMercuryoWidgetUrl "0x&currency=BTC" "wid" "sec" "1.2.3.4"
      "1700000000000") "currency" = 2 ∧
    ¬ countParam (buildMercuryoWidgetUrl "0x&currency=BTC" "wid" "sec" "1.2.3.4"
      "1700000000000") "currency" = 1 := by
  constructor
  · decide
  · decide

/-- Witness for claim C2 at a concrete ampersand-free input. -/
theorem claim_C2_witness :
    countParam (buildMercuryoWidgetUrl "0xABC" "w1" "s3cr3t" "1.2.3.4"
      "1700000000000") "signature" = 1 :=
  (claim_C2_url_parameter_set "0xABC" "w1" "s3cr3t" "1.2.3.4" "1700000000000"
    (by decide) (by decide) (by decide)).2.2.2.2.1

/-- Values of the JavaScript message payload `event.data`, as consumed by
the handler: primitives, null, undefined, or an object of named fields. -/
inductive JsValue where
  | str : String → JsValue
  | num : Int → JsValue
  | boolean : Bool → JsValue
  | null : JsValue
  | undefined : JsValue
  | obj : List (String × JsValue) → JsValue

/-- JavaScript `typeof`: note that `typeof null` is "object". -/
def jsTypeof : JsValue → String
  | .str _ => "string"
  | .num _ => "number"
  | .boolean _ => "boolean"
  | .null => "object"
  | .undefined => "undefined"
  | .obj _ => "object"

/-- JavaScript strict equality of a value against a string literal: true
exactly for an equal string. -/
def jsStrEq : JsValue → String → Bool
  | .str s, t => s == t
  | _, _ => false

/-- Property lookup on an object's field list; missing fields read as
undefined, the first binding of a repeated name wins. -/
def lookupField : List (String × JsValue) → String → JsValue
  | [], _ => .undefined
  | (k, v) :: rest, name => if k = name then v else lookupField rest name

/-- Body of the `handleMessage` listener of the component, up to the
enclosing try: returns the list of `handleClose` success flags fired, or
an error for the TypeError thrown by reading a property of null. -/
def handleMessageTry (data : JsValue) : Except Unit (List Bool) :=
  if jsTypeof data = "object" then
    match data with
    | .obj fs =>
      if jsStrEq (lookupField fs "status") "success" ||
          jsStrEq (lookupField fs "event") "transaction.success" then
        .ok [true]
      else if jsStrEq (lookupField fs "status") "failure" ||
          jsStrEq (lookupField fs "event") "transaction.failure" then
        .ok [false]
      else
        .ok []
    | _ => .error ()
  else
    .ok []

/-- The catch of `handleMessage` logs and swallows the error: the handler
never crashes the session and fires nothing on a throwing payload. -/
def handleMessage (data : JsValue) : List Bool :=
  match handleMessageTry data with
  | .ok fired => fired
  | .error _ => []

/-- Observable completion action: the caller-supplied onClose callback, or
the router navigation-back fallback. -/
inductive CloseAction where
  | callback : CloseAction
  | navBack : CloseAction
deriving DecidableEq

/-- Embedding of `handleClose`: the success flag is accepted but unused;
with an onClose callback present it is invoked (with no arguments),
otherwise the router navigates back. -/
def handleClose (hasOnClose : Bool) (_success : Bool) : CloseAction :=
  if hasOnClose then .callback else .navBack

/-- Observable actions fired by the message handler for one payload. -/
def messageActions (hasOnClose : Bool) (data : JsValue) : List CloseAction :=
  (handleMessage data).map (handleClose hasOnClose)

/-- Payloads the spec calls completion messages: object-shaped with status
"success", status "failure", event "transaction.success" or event
"transaction.failure". -/
def completionShaped : JsValue → Bool
  | .obj fs =>
    (jsStrEq (lookupField fs "status") "success" ||
     jsStrEq (lookupField fs "event") "transaction.success") ||
    (jsStrEq (lookupField fs "status") "failure" ||
     jsStrEq (lookupField fs "event") "transaction.failure")
  | _ => false

/-- The handler's observable behavior in one equation: a completion-shaped
payload fires the single close action, anything else fires nothing. -/
theorem messageActions_eq (hasOnClose : Bool) (d : JsValue) :
    messageActions hasOnClose d =
      if completionShaped d then
        [if hasOnClose then CloseAction.callback else CloseAction.navBack]
      else [] := by
  cases d with
  | obj fs =>
    by_cases h1 : (jsStrEq (lookupField fs "status") "success" ||
        jsStrEq (lookupField fs "event") "transaction.success") = true
    · simp [messageActions, handleMessage, handleMessageTry, jsTypeof,
        completionShaped, handleClose, h1]
    · by_cases h2 : (jsStrEq (lookupField fs "status") "failure" ||
          jsStrEq (lookupField fs "event") "transaction.failure") = true
      · simp [messageActions, handleMessage, handleMessageTry, jsTypeof,
          completionShaped, handleClose, h1, h2]
      · simp [messageActions, handleMessage, handleMessageTry, jsTypeof,
          completionShaped, handleClose, h1, h2]
  | str s => simp [messageActions, handleMessage, handleMessageTry, jsTypeof,
      completionShaped]
  | num n => simp [messageActions, handleMessage, handleMessageTry, jsTypeof,
      completionShaped]
  | boolean b => simp [messageActions, handleMessage, handleMessageTry, jsTypeof,
      completionShaped]
  | null => simp [messageActions, handleMessage, handleMessageTry, jsTypeof,
      completionShaped]
  | undefined => simp [messageActions, handleMessage, handleMessageTry, jsTypeof,
      completionShaped]

/-- Claim C3: for every inbound message, the handler fires the completion
action — the callback when onClose is supplied, otherwise navigation back
— exactly once when the payload is object-shaped with status "success",
status "failure", event "transaction.success" or event
"transaction.failure"; for any other payload, including non-objects, null
(whose property read throws and is caught) and malformed objects such as
(foo, "bar"), it fires nothing and does not crash: the catch turns the
thrown TypeError into the empty action list, and the handler touches no
session state beyond the close action itself. -/
theorem claim_C3_completion_exactly_once (hasOnClose : Bool) (data : JsValue) :
    messageActions hasOnClose data =
      (if completionShaped data then
        [if hasOnClose then CloseAction.callback else CloseAction.navBack]
      else []) ∧
    (messageActions hasOnClose data).length ≤ 1 ∧
    messageActions hasOnClose (.obj [("status", .str "success")]) =
      [if hasOnClose then CloseAction.callback else CloseAction.navBack] ∧
    messageActions hasOnClose (.obj [("status", .str "failure")]) =
      [if hasOnClose then CloseAction.callback else CloseAction.navBack] ∧
    messageActions hasOnClose (.obj [("foo", .str "bar")]) = [] ∧
    messageActions hasOnClose .null = [] ∧
    handleMessageTry .null = .error () ∧ handleMessage .null = [] := by
  refine ⟨messageActions_eq hasOnClose data, ?_, ?_, ?_, ?_, ?_, rfl, rfl⟩
  · rw [messageActions_eq hasOnClose data]
    by_cases h : completionShaped data = true
    · simp [h]
    · simp [h]
  · rw [messageActions_eq]
    simp [completionShaped, lookupField, jsStrEq]
  · rw [messageActions_eq]
    simp [completionShaped, lookupField, jsStrEq]
  · rw [messageActions_eq]
    simp [completionShaped, lookupField, jsStrEq]
  · rw [messageActions_eq]
    simp [completionShaped, lookupField, jsStrEq]

/-- Claim C10: `handleClose` discards its success flag, so when an onClose
callback is present it is invoked identically (with no arguments) for
success and failure completions: any two completion-shaped payloads
trigger exactly the same observable close actions. -/
theorem claim_C10_success_flag_discarded (hasOnClose : Bool) (b1 b2 : Bool)
    (dS dF : JsValue)
    (hS : completionShaped dS = true) (hF : completionShaped dF = true) :
    handleClose hasOnClose b1 = handleClose hasOnClose b2 ∧
    messageActions hasOnClose dS = messageActions hasOnClose dF := by
  refine ⟨rfl, ?_⟩
  rw [messageActions_eq, messageActions_eq, hS, hF]

/-- Witness for claim C10 on the concrete success and failure payloads with
a supplied onClose callback. -/
theorem claim_C10_witness :
    handleClose true true = handleClose true false ∧
    messageActions true (.obj [("status", .str "success")]) =
      messageActions true (.obj [("status", .str "failure")]) :=
  claim_C10_success_flag_discarded true true false
    (.obj [("status", .str "success")]) (.obj [("status", .str "failure")])
    (by decide) (by decide)

/-- The component state owned by the session controller: the `loading`
flag, the `error` message and the `finalUrl` string of the three useState
hooks. -/
structure SessionState where
  loading : Bool
  error : Option String
  finalUrl : String
deriving DecidableEq

/-- Initial component state: loading true, no error, empty URL. -/
def initialState : SessionState := ⟨true, none, ""⟩

/-- The external identity collaborator's user object, carrying the
`safeAddress` field the controller reads. -/
structure User where
  safeAddress : Option String

/-- JavaScript falsiness of an optional string: absent or empty. -/
def strFalsy : Option String → Bool
  | none => true
  | some s => s == ""

/-- The try block of the `buildUrl` effect: awaits the client IP (whose
failure is modelled by the `Except` argument), reads the widget id and
secret from configuration, throws when either is falsy, and otherwise
returns the built widget URL. The `Date.now().toString()` read is passed
in as `now`. -/
def buildUrlTry (address : String) (ipResult : Except Unit String)
    (widgetId widgetSecret : Option String) (now : String) :
    Except Unit String :=
  match ipResult with
  | .error e => .error e
  | .ok userIp =>
    match widgetId, widgetSecret with
    | some wid, some wsec =>
      if wid = "" ∨ wsec = "" then .error ()
      else .ok (buildMercuryoWidgetUrl address wid wsec userIp now)
    | _, _ => .error ()

/-- Embedding of the `buildUrl` effect body: reset the error, wait while
the user object is absent, surface "No address provided" when the user
lacks a (truthy) safeAddress, and otherwise run the try block, storing the
URL on success and the "Failed to initialize widget" error (with loading
cleared) on failure. The effect re-runs on every change of `user`. -/
def buildUrl (user : Option User) (ipResult : Except Unit String)
    (widgetId widgetSecret : Option String) (now : String)
    (s : SessionState) : SessionState :=
  let s0 : SessionState := { s with error := none }
  match user with
  | none => s0
  | some u =>
    if strFalsy u.safeAddress then
      { s0 with error := some "No address provided", loading := false }
    else
      match u.safeAddress with
      | none => { s0 with error := some "No address provided", loading := false }
      | some address =>
        match buildUrlTry address ipResult widgetId widgetSecret now with
        | .ok url => { s0 with finalUrl := url }
        | .error _ =>
          { s0 with error := some "Failed to initialize widget", loading := false }

/-- Claim C7: with no authenticated identity the effect only clears the
error and returns, so the session stays as it was — from the initial
state it remains Loading, and no error is ever set from mere absence of
the user object. -/
theorem claim_C7_no_identity_stays_loading (ip : Except Unit String)
    (wid wsec : Option String) (now : String) (s : SessionState) :
    buildUrl none ip wid wsec now s = { s with error := none } ∧
    buildUrl none ip wid wsec now initialState = initialState ∧
    (buildUrl none ip wid wsec now s).loading = s.loading ∧
    (buildUrl none ip wid wsec now s).error = none := ⟨rfl, rfl, rfl, rfl⟩

/-- Claim C8: when the user object exists but its safeAddress is absent,
the effect sets the error to exactly "No address provided", clears the
loading flag, and leaves finalUrl untouched — no widget URL is built. -/
theorem claim_C8_missing_address_error (u : User) (ip : Except Unit String)
    (wid wsec : Option String) (now : String) (s : SessionState)
    (h : u.safeAddress = none) :
    buildUrl (some u) ip wid wsec now s =
      ⟨false, some "No address provided", s.finalUrl⟩ := by
  simp [buildUrl, h, strFalsy]

/-- Witness for claim C8 on a user with no safeAddress, from the initial
state. -/
theorem claim_C8_missing_address_error_witness :
    buildUrl (some ⟨none⟩) (.ok "1.2.3.4") (some "w") (some "sec")
      "1700000000000" initialState = ⟨false, some "No address provided", ""⟩ :=
  claim_C8_missing_address_error ⟨none⟩ (.ok "1.2.3.4") (some "w") (some "sec")
    "1700000000000" initialState rfl

/-- Claim C9: when the widget id or widget secret is missing (falsy) in
configuration the try block fails, and any failure of the try block —
including a failed signature/URL build — propagates to the session as the
user-visible "Failed to initialize widget" error with loading cleared and
finalUrl untouched, so the widget load is never attempted. -/
theorem claim_C9_missing_config_error (address : String)
    (ip : Except Unit String) (wid wsec : Option String) (now : String)
    (s : SessionState)
    (hcfg : strFalsy wid = true ∨ strFalsy wsec = true)
    (haddr : ¬ address = "") :
    buildUrlTry address ip wid wsec now = .error () ∧
    buildUrl (some ⟨some address⟩) ip wid wsec now s =
      ⟨false, some "Failed to initialize widget", s.finalUrl⟩ ∧
    (∀ ip2 wid2 wsec2,
      buildUrlTry address ip2 wid2 wsec2 now = .error () →
      buildUrl (some ⟨some address⟩) ip2 wid2 wsec2 now s =
        ⟨false, some "Failed to initialize widget", s.finalUrl⟩) := by
  have herr : buildUrlTry address ip wid wsec now = .error () := by
    cases ip with
    | error e => cases e; rfl
    | ok userIp =>
      rcases hcfg with h | h
      · cases wid with
        | none => cases wsec <;> rfl
        | some w =>
          simp only [strFalsy, beq_iff_eq] at h
          cases wsec with
          | none => rfl
          | some ws => simp [buildUrlTry, h]
      · cases wsec with
        | none => cases wid <;> rfl
        | some ws =>
          simp only [strFalsy, beq_iff_eq] at h
          cases wid with
          | none => rfl
          | some w => simp [buildUrlTry, h]
  refine ⟨herr, ?_, ?_⟩
  · simp [buildUrl, strFalsy, haddr, herr]
  · intro ip2 wid2 wsec2 h2
    simp [buildUrl, strFalsy, haddr, h2]

/-- Witness for claim C9 with a missing widget id, from the initial
state. -/
theorem claim_C9_missing_config_error_witness :
    buildUrl (some ⟨some "0xABC"⟩) (.ok "1.2.3.4") none (some "sec")
      "1700000000000" initialState =
      ⟨false, some "Failed to initialize widget", ""⟩ :=
  (claim_C9_missing_config_error "0xABC" (.ok "1.2.3.4") none (some "sec")
    "1700000000000" initialState (Or.inl rfl) (by decide)).2.1

/-- Claim C5 (amended): when the identity data changes after Ready, the
effect re-runs the build sequence, but it does not transition back to
Loading and does not invalidate the previously displayed URL: the loading
flag stays false on every path, and finalUrl either keeps its previous
value or is directly overwritten by the newly built URL on success. The
claim as stated — back to Loading, previous URL invalidated before the
rebuild — is refuted by the counterexample. -/
theorem claim_C5_rebuild_keeps_ready_state (user : Option User)
    (ip : Except Unit String) (wid wsec : Option String) (now : String)
    (s : SessionState) (h : s.loading = false) :
    (buildUrl user ip wid wsec now s).loading = false ∧
    ((buildUrl user ip wid wsec now s).finalUrl = s.finalUrl ∨
      ∃ a url, user = some ⟨some a⟩ ∧
        buildUrlTry a ip wid wsec now = .ok url ∧
        (buildUrl user ip wid wsec now s).finalUrl = url) := by
  cases user with
  | none => exact ⟨h, Or.inl rfl⟩
  | some u =>
    obtain ⟨sa⟩ := u
    cases sa with
    | none => exact ⟨rfl, Or.inl rfl⟩
    | some a =>
      by_cases ha : a = ""
      · subst ha
        exact ⟨rfl, Or.inl rfl⟩
      · cases htry : buildUrlTry a ip wid wsec now with
        | ok url =>
          refine ⟨?_, Or.inr ⟨a, url, rfl, htry, ?_⟩⟩ <;>
            simp [buildUrl, strFalsy, ha, htry, h]
        | error e =>
          cases e
          refine ⟨?_, Or.inl ?_⟩ <;> simp [buildUrl, strFalsy, ha, htry]

/-- Counterexample to claim C5 as stated: from the Ready state (loading
false, URL "https://old") an identity change re-runs the effect, yet the
state does not return to Loading (the flag stays false even when the
rebuild succeeds) and the previous URL is not invalidated (it is still
there when the rebuild fails mid-sequence). -/
theorem claim_C5_counterexample :
    (buildUrl (some ⟨some "0xNEW"⟩) (.ok "1.2.3.4") (some "w") (some "sec")
      "1700000000000" ⟨false, none, "https://old"⟩).loading = false ∧
    (buildUrl (some ⟨some "0xNEW"⟩) (.error ()) (some "w") (some "sec")
      "1700000000000" ⟨false, none, "https://old"⟩).finalUrl = "https://old" ∧
    ¬ (buildUrl (some ⟨some "0xNEW"⟩) (.ok "1.2.3.4") (some "w") (some "sec")
      "1700000000000" ⟨false, none, "https://old"⟩).loading = true := by
  refine ⟨?_, ?_, ?_⟩ <;> decide

/-- Witness for claim C5 from a concrete Ready state. -/
theorem claim_C5_rebuild_keeps_ready_state_witness :
    (buildUrl (some ⟨some "0xOLD"⟩) (.error ()) (some "w") (some "sec")
      "1700000000000" ⟨false, none, "https://previous"⟩).loading = false :=
  (claim_C5_rebuild_keeps_ready_state (some ⟨some "0xOLD"⟩) (.error ())
    (some "w") (some "sec") "1700000000000" ⟨false, none, "https://previous"⟩
    rfl).1

/-- Claim C4 (amended): `createWidgetSignature` performs no runtime
validation: absence of a field is excluded only by the static type, and
empty strings are accepted — the call succeeds and returns the
version-prefixed digest of whatever concatenation results, e.g. with an
empty address it hashes just secret || ip || merchantTransactionId, and
with all four fields empty it still returns a well-formed 131-character
signature. The claim as stated — the operation fails on an empty field —
is refuted by the counterexample. -/
theorem claim_C4_no_emptiness_validation (secret ip mtid : String) :
    createWidgetSignature "" secret ip mtid =
      "v2:" ++ sha512Hex (secret ++ ip ++ mtid) ∧
    (createWidgetSignature "" "" "" "").length = 131 := by
  constructor
  · rfl
  · decide

/-- Counterexample to claim C4 as stated: with all four fields empty the
function does not fail; it returns the signature "v2:" ++ sha512hex("")
concretely. -/
theorem claim_C4_counterexample :
    createWidgetSignature "" "" "" "" =
      "v2:cf83e1357eefb8bdf1542850d66d8007d620e4050b5715dc83f4a921d36ce9ce47d0d13c5d85f2b0ff8318d2877eec2f63b931bd47417a81a538327af927da3e" := by
  decide
